import Mathlib

/-!
Verification development for the Mino MuPDF helper layer
(src/Mino/Core/MuPDF/MuPDFHelpers.c and MuPDFHelpers.h).

The C layer is a thin wrapper over the MuPDF library.  We embed it shallowly:

* handles (fz_context, fz_document, pdf_document, fz_pixmap) become plain
  values wrapped in Option, where `none` models a NULL pointer;
* the thread-local error buffer `last_error` becomes an explicit String state
  threaded through each operation ("" models the cleared buffer);
* each call into the MuPDF library made inside an fz_try block becomes an
  explicit `Except String` parameter: `Except.ok` is a normal return,
  `Except.error m` is an fz_throw caught by fz_catch with message m;
* library behaviour that the wrapper configures but does not itself contain
  (the image rewriter's candidate decision, page-range deletion, graft maps,
  rectangle rounding, the atomic save) is modelled from the specification,
  each such definition carrying a doc comment starting "Modelled from the
  spec:".

Machine integers are modelled as Int (no arithmetic in the wrapper can
overflow for the ranges the spec discusses); geometric quantities use ℚ.
-/

/-! ## Handles -/

/-- An fz_context handle; the numeric payload only gives handles identity. -/
def fz_context : Type := ℕ

/-- An fz_document handle. -/
def fz_document : Type := ℕ

/-- A pdf_document handle. -/
def pdf_document : Type := ℕ

instance : DecidableEq fz_context := instDecidableEqNat
instance : DecidableEq fz_document := instDecidableEqNat
instance : DecidableEq pdf_document := instDecidableEqNat
instance : OfNat fz_context 0 := ⟨(0 : ℕ)⟩
instance : OfNat fz_document 0 := ⟨(0 : ℕ)⟩
instance : OfNat pdf_document 0 := ⟨(0 : ℕ)⟩

/-! ## Thread-local error state (MuPDFHelpers.c lines 14-33)

The C buffer `last_error` holds at most 255 characters; `set_error` copies a
non-null message into it (truncating), `mino_clear_error` empties it, and
`mino_get_last_error` returns NULL exactly when the buffer is empty. -/

/-- set_error (C line 18): store a (non-null) message, truncated to the
255 characters that fit the 256-byte buffer. -/
def set_error (msg : String) (_s : String) : String :=
  String.mk (msg.data.take 255)

/-- mino_clear_error (C line 31): empty the buffer. -/
def mino_clear_error (_s : String) : String := ""

/-- mino_get_last_error (C line 26): NULL when the buffer is empty
(last_error[0] is the NUL terminator), otherwise the stored message. -/
def mino_get_last_error (s : String) : Option String :=
  if s = "" then none else some s

/-! ## Context and document operations (C lines 35-115) -/

/-- mino_create_context (C lines 36-54).  `newCtx` is the fz_new_context
result (`none` models allocation failure); `registerHandlers` is the
fz_register_document_handlers call inside fz_try. -/
def mino_create_context (newCtx : Option fz_context)
    (registerHandlers : Except String Unit) (s : String) :
    Option fz_context × String :=
  let s := mino_clear_error s
  match newCtx with
  | none => (none, set_error "Failed to create MuPDF context" s)
  | some ctx =>
    match registerHandlers with
    | Except.ok _ => (some ctx, s)
    | Except.error m => (none, set_error m s)

/-- mino_open_document (C lines 64-82).  `lib` is the fz_open_document call
inside fz_try. -/
def mino_open_document (ctx : Option fz_context) (path : Option String)
    (lib : Except String fz_document) (s : String) :
    Option fz_document × String :=
  match ctx, path with
  | some _, some _ =>
    let s := mino_clear_error s
    match lib with
    | Except.ok d => (some d, s)
    | Except.error m => (none, set_error m s)
  | _, _ => (none, set_error "Invalid context or path" s)

/-- mino_count_pages (C lines 92-107).  Note: the NULL guard returns -1
without touching the error buffer, and the function never clears it. -/
def mino_count_pages (ctx : Option fz_context) (doc : Option fz_document)
    (lib : Except String Int) (s : String) : Int × String :=
  match ctx, doc with
  | some _, some _ =>
    match lib with
    | Except.ok n => (n, s)
    | Except.error m => (-1, set_error m s)
  | _, _ => (-1, s)

/-- mino_pdf_specifics (C lines 110-115): a plain delegation with a NULL
guard; it neither clears nor sets the error buffer. -/
def mino_pdf_specifics (ctx : Option fz_context) (doc : Option fz_document)
    (lib : Option pdf_document) (s : String) :
    Option pdf_document × String :=
  match ctx, doc with
  | some _, some _ => (lib, s)
  | _, _ => (none, s)

/-! ## Image rewriter options (C lines 117-177)

mino_rewrite_images builds a pdf_image_rewriter_options record covering the
four colour/grey × lossy/lossless image classes and hands it to MuPDF's
pdf_rewrite_images.  The remaining fields of the C struct stay
zero-initialised and are omitted here. -/

/-- The fz recompression methods (fz enum; zero-initialised fields are
`never`). -/
inductive RecompressMethod
  | never
  | same
  | lossless
  | jpeg
  | j2k
deriving DecidableEq, Repr

/-- The fz subsampling methods. -/
inductive SubsampleMethod
  | average
  | bicubic
deriving DecidableEq, Repr

/-- The per-class slice of pdf_image_rewriter_options that the wrapper
sets (threshold, target dpi, quality string, methods). -/
structure ImageClassOpts where
  subsample_threshold : Int
  subsample_to : Int
  recompress_quality : String
  recompress_method : RecompressMethod
  subsample_method : SubsampleMethod
deriving DecidableEq, Repr

/-- The four image classes the wrapper configures. -/
structure pdf_image_rewriter_options where
  color_lossy : ImageClassOpts
  color_lossless : ImageClassOpts
  gray_lossy : ImageClassOpts
  gray_lossless : ImageClassOpts
deriving DecidableEq, Repr

/-- An image class tag, to quantify over the four configured classes. -/
inductive ImageClass
  | colorLossy
  | colorLossless
  | grayLossy
  | grayLossless
deriving DecidableEq, Repr

/-- Select the options slice for an image class. -/
def classOpts (o : pdf_image_rewriter_options) : ImageClass → ImageClassOpts
  | ImageClass.colorLossy => o.color_lossy
  | ImageClass.colorLossless => o.color_lossless
  | ImageClass.grayLossy => o.gray_lossy
  | ImageClass.grayLossless => o.gray_lossless

/-- The pdf_image_rewriter_options built by mino_rewrite_images
(C lines 132-166): every class gets the same threshold, the same subsample
target, JPEG recompression at quality `toString jpeg_quality` (the snprintf
at line 134), and average subsampling. -/
def mino_rewrite_images_options (jpeg_quality target_dpi dpi_threshold : Int) :
    pdf_image_rewriter_options :=
  let quality_str := toString jpeg_quality
  { color_lossy :=
      { subsample_threshold := dpi_threshold
        subsample_to := target_dpi
        recompress_quality := quality_str
        recompress_method := RecompressMethod.jpeg
        subsample_method := SubsampleMethod.average }
    color_lossless :=
      { subsample_threshold := dpi_threshold
        subsample_to := target_dpi
        recompress_quality := quality_str
        recompress_method := RecompressMethod.jpeg
        subsample_method := SubsampleMethod.average }
    gray_lossy :=
      { subsample_threshold := dpi_threshold
        subsample_to := target_dpi
        recompress_quality := quality_str
        recompress_method := RecompressMethod.jpeg
        subsample_method := SubsampleMethod.average }
    gray_lossless :=
      { subsample_threshold := dpi_threshold
        subsample_to := target_dpi
        recompress_quality := quality_str
        recompress_method := RecompressMethod.jpeg
        subsample_method := SubsampleMethod.average } }

/-- The rewriter options used by mino_compress_pdf's image pass: the
pipeline fixes dpi_threshold = target_dpi + 50 (C line 197, "Allow some
headroom") before delegating to mino_rewrite_images. -/
def mino_compress_rewrite_options (jpeg_quality target_dpi : Int) :
    pdf_image_rewriter_options :=
  mino_rewrite_images_options jpeg_quality target_dpi (target_dpi + 50)

/-- Modelled from the spec: the candidate decision inside MuPDF's
pdf_rewrite_images (library code, not under src; the wrapper only builds its
options).  Spec §4.2: an image is a candidate for rewriting if its effective
resolution exceeds target_dpi + dpi_headroom, i.e. exceeds the configured
subsample threshold for its class. -/
def isRewriteCandidate (o : pdf_image_rewriter_options) (c : ImageClass)
    (effective_dpi : ℚ) : Bool :=
  ((classOpts o c).subsample_threshold : ℚ) < effective_dpi

/-- The per-image decision record of spec §3 (ImageRewritePlan). -/
structure ImageRewritePlan where
  recompress : Bool
  target_codec : RecompressMethod
  quality : String
  downsample_to_dpi : Int
deriving DecidableEq, Repr

/-- Modelled from the spec: plan construction inside pdf_rewrite_images
(library code, not under src).  Spec §4.2: when a candidate is found the
plan targets the class's configured recompression method and quality and
its downsample target; a non-candidate is left untouched. -/
def planImage (o : pdf_image_rewriter_options) (c : ImageClass)
    (effective_dpi : ℚ) : ImageRewritePlan :=
  if isRewriteCandidate o c effective_dpi then
    { recompress := true
      target_codec := (classOpts o c).recompress_method
      quality := (classOpts o c).recompress_quality
      downsample_to_dpi := (classOpts o c).subsample_to }
  else
    { recompress := false
      target_codec := RecompressMethod.never
      quality := ""
      downsample_to_dpi := 0 }

/-- mino_rewrite_images (C lines 118-177): NULL guard, clear the error
buffer, run pdf_rewrite_images inside fz_try (`lib`), catch any throw into
the error buffer and return -1, else return 0. -/
def mino_rewrite_images (ctx : Option fz_context) (doc : Option pdf_document)
    (_jpeg_quality _target_dpi _dpi_threshold : Int)
    (lib : Except String Unit) (s : String) : Int × String :=
  match ctx, doc with
  | some _, some _ =>
    let s := mino_clear_error s
    match lib with
    | Except.ok _ => (0, s)
    | Except.error m => (-1, set_error m s)
  | _, _ => (-1, set_error "Invalid context or document" s)

/-! ## Write options and the save pipeline (C lines 179-221) -/

/-- The slice of MuPDF's pdf_write_options that mino_compress_pdf sets.
The C fields are ints used as booleans (1/0); do_garbage is the 0-4
garbage-collection level. -/
structure pdf_write_options where
  do_garbage : Int
  do_compress : Int
  do_compress_images : Int
  do_compress_fonts : Int
  do_clean : Int
  do_sanitize : Int
  do_linear : Int
  do_appearance : Int
deriving DecidableEq, Repr

/-- pdf_default_write_options (MuPDF's default constant): every pass off. -/
def pdf_default_write_options : pdf_write_options :=
  { do_garbage := 0
    do_compress := 0
    do_compress_images := 0
    do_compress_fonts := 0
    do_clean := 0
    do_sanitize := 0
    do_linear := 0
    do_appearance := 0 }

/-- The write options mino_compress_pdf builds (C lines 200-210): it starts
from the default constant and then assigns every listed field, taking only
garbage_level from its arguments. -/
def mino_write_options (garbage_level : Int) : pdf_write_options :=
  { pdf_default_write_options with
    do_garbage := garbage_level
    do_compress := 1
    do_compress_images := 1
    do_compress_fonts := 1
    do_clean := 1
    do_sanitize := 1
    do_linear := 0
    do_appearance := 0 }

/-- The save options recognised by the specification (§4.3, §6); stated for
the refinement claim about the save contract. -/
structure SaveOptions where
  garbage_level : Int
  compress_streams : Bool
  compress_images : Bool
  compress_fonts : Bool
  clean_content_streams : Bool
  sanitize : Bool
  linearize : Bool
  regenerate_appearances : Bool
deriving DecidableEq, Repr

/-- Encode a C boolean. -/
def boolToInt (b : Bool) : Int := if b then 1 else 0

/-- The spec's reading of the save contract (§4.3), stated from the spec's
words for comparison with the code: every recognised option is taken from
the caller-supplied options and controls its pass. -/
def specWriteOptions (o : SaveOptions) : pdf_write_options :=
  { do_garbage := o.garbage_level
    do_compress := boolToInt o.compress_streams
    do_compress_images := boolToInt o.compress_images
    do_compress_fonts := boolToInt o.compress_fonts
    do_clean := boolToInt o.clean_content_streams
    do_sanitize := boolToInt o.sanitize
    do_linear := boolToInt o.linearize
    do_appearance := boolToInt o.regenerate_appearances }

/-- The write options the code actually derives from caller-supplied save
options: mino_compress_pdf's signature (C lines 180-187) accepts only
garbage_level; every other pass is fixed by mino_write_options. -/
def codeWriteOptions (o : SaveOptions) : pdf_write_options :=
  mino_write_options o.garbage_level

/-- mino_compress_pdf (C lines 180-221): NULL guard, clear the error
buffer, call mino_rewrite_images with dpi_threshold = target_dpi + 50 and
ignore its return value (C line 198), build the write options and run
pdf_save_document on them inside the same fz_try (`saveLib`, a function of
the options it receives); a throw from the save is caught into the error
buffer with return -1, otherwise the function returns 0.  An error set by a
failed rewrite step survives to the final state because nothing clears it
afterwards. -/
def mino_compress_pdf (ctx : Option fz_context) (doc : Option pdf_document)
    (output_path : Option String) (jpeg_quality target_dpi garbage_level : Int)
    (rewriteLib : Except String Unit)
    (saveLib : pdf_write_options → Except String Unit)
    (s : String) : Int × String :=
  match ctx, doc, output_path with
  | some c, some d, some _ =>
    let s := mino_clear_error s
    let dpi_threshold := target_dpi + 50
    let s :=
      (mino_rewrite_images (some c) (some d) jpeg_quality target_dpi
        dpi_threshold rewriteLib s).2
    match saveLib (mino_write_options garbage_level) with
    | Except.ok _ => (0, s)
    | Except.error m => (-1, set_error m s)
  | _, _, _ => (-1, set_error "Invalid parameters" s)

/-- mino_get_file_size (C lines 224-239): NULL path or a failed
fopen/fseek yields -1; the error buffer is never touched. -/
def mino_get_file_size (path : Option String) (lib : Except Unit Int)
    (s : String) : Int × String :=
  match path with
  | none => (-1, s)
  | some _ =>
    match lib with
    | Except.ok n => (n, s)
    | Except.error _ => (-1, s)

/-! ## Geometry and rendering (C lines 241-330) -/

/-- fz_rect: a rectangle with rational coordinates. -/
structure fz_rect where
  x0 : ℚ
  y0 : ℚ
  x1 : ℚ
  y1 : ℚ
deriving DecidableEq, Repr

/-- fz_irect: an integer rectangle. -/
structure fz_irect where
  x0 : ℤ
  y0 : ℤ
  x1 : ℤ
  y1 : ℤ
deriving DecidableEq, Repr

/-- Modelled from the spec: fz_transform_rect applied to the pure scale
matrix fz_scale(zoom, zoom) (library code, not under src); §4.5 scales the
page bounding box by the given scale transform. -/
def scale_rect (zoom : ℚ) (r : fz_rect) : fz_rect :=
  { x0 := zoom * r.x0
    y0 := zoom * r.y0
    x1 := zoom * r.x1
    y1 := zoom * r.y1 }

/-- Modelled from the spec: fz_round_rect (library code, not under src),
the minimal integer box covering a rect; §4.5 derives the output buffer
size as ceil(bbox * scale). -/
def round_rect (r : fz_rect) : fz_irect :=
  { x0 := ⌊r.x0⌋
    y0 := ⌊r.y0⌋
    x1 := ⌈r.x1⌉
    y1 := ⌈r.y1⌉ }

/-- fz_pixmap: an RGB(+alpha) raster.  `samples` maps a byte index to a
byte value. -/
structure fz_pixmap where
  w : ℤ
  h : ℤ
  n : ℕ
  alpha : Bool
  stride : ℤ
  samples : ℕ → ℕ

/-- Modelled from the spec: fz_new_pixmap_with_bbox with the RGB colourspace
and alpha, followed by fz_clear_pixmap_with_value 255 (library code, not
under src): the pixmap spans the bbox and every byte (including alpha) is
255, i.e. opaque white. -/
def new_pixmap_white (bbox : fz_irect) : fz_pixmap :=
  { w := bbox.x1 - bbox.x0
    h := bbox.y1 - bbox.y0
    n := 4
    alpha := true
    stride := 4 * (bbox.x1 - bbox.x0)
    samples := fun _ => 255 }

/-- mino_render_page (C lines 242-297): NULL guard, clear the error buffer,
then inside fz_try load the page and take its bounds (`tryBounds`; a throw
anywhere in the block is caught into the error buffer with a NULL result),
build the bbox as round_rect (scale_rect zoom bounds), allocate the pixmap,
clear it to white, and run the page through a draw device (`paint`, which
repaints the sample buffer but does not resize it). -/
def mino_render_page (ctx : Option fz_context) (doc : Option fz_document)
    (tryBounds : Except String fz_rect) (zoom : ℚ)
    (paint : (ℕ → ℕ) → ℕ → ℕ) (s : String) :
    Option fz_pixmap × String :=
  match ctx, doc with
  | some _, some _ =>
    let s := mino_clear_error s
    match tryBounds with
    | Except.error m => (none, set_error m s)
    | Except.ok bounds =>
      let bbox := round_rect (scale_rect zoom bounds)
      let pix := new_pixmap_white bbox
      (some { pix with samples := paint pix.samples }, s)
  | _, _ => (none, set_error "Invalid context or document" s)

/-- mino_get_page_size (C lines 300-330): NULL guard, clear the error
buffer, load the page and report bounds.x1 - bounds.x0 and
bounds.y1 - bounds.y0 through the width/height out-parameters (which keep
their previous values `w`, `h` on any failure). -/
def mino_get_page_size (ctx : Option fz_context) (doc : Option fz_document)
    (tryBounds : Except String fz_rect) (w h : ℚ) (s : String) :
    Int × ℚ × ℚ × String :=
  match ctx, doc with
  | some _, some _ =>
    let s := mino_clear_error s
    match tryBounds with
    | Except.ok b => (0, b.x1 - b.x0, b.y1 - b.y0, s)
    | Except.error m => (-1, w, h, set_error m s)
  | _, _ => (-1, w, h, set_error "Invalid parameters" s)

/-! ## Pixmap accessors (C lines 339-358) -/

/-- mino_pixmap_width (C lines 340-343). -/
def mino_pixmap_width (ctx : Option fz_context) (pix : Option fz_pixmap) :
    Int :=
  match ctx, pix with
  | some _, some p => p.w
  | _, _ => 0

/-- mino_pixmap_height (C lines 345-348). -/
def mino_pixmap_height (ctx : Option fz_context) (pix : Option fz_pixmap) :
    Int :=
  match ctx, pix with
  | some _, some p => p.h
  | _, _ => 0

/-- mino_pixmap_samples (C lines 350-353). -/
def mino_pixmap_samples (ctx : Option fz_context) (pix : Option fz_pixmap) :
    Option (ℕ → ℕ) :=
  match ctx, pix with
  | some _, some p => some p.samples
  | _, _ => none

/-- mino_pixmap_stride (C lines 355-358). -/
def mino_pixmap_stride (ctx : Option fz_context) (pix : Option fz_pixmap) :
    Int :=
  match ctx, pix with
  | some _, some p => p.stride
  | _, _ => 0

/-! ## Per-image rewrite pass (spec §4.3 step 1, §7)

The per-image behaviour lives inside MuPDF's pdf_rewrite_images; the wrapper
only supplies options and maps a thrown error to -1.  The pass itself is
modelled from the spec. -/

/-- An embedded image XObject: its object id, whether its source stream is
corrupt/unreadable, and whether it has been recompressed. -/
structure ImageObj where
  oid : ℕ
  corrupt : Bool
  recompressed : Bool
deriving DecidableEq, Repr

/-- Modelled from the spec: the per-image pass of pdf_rewrite_images
(library code, not under src).  Spec §4.3/§7: a corrupt or unreadable
source stream is a recoverable per-object failure — that image is left
unmodified; every readable image is recompressed per the plan. -/
def rewriteImagePass (imgs : List ImageObj) : List ImageObj :=
  imgs.map fun img =>
    if img.corrupt then img else { img with recompressed := true }

/-- Modelled from the spec: the recoverable sub-failures collected by the
per-image pass (spec §7: per-object failures inside a bulk operation are
collected and reported alongside a best-effort result), as the object ids
of the corrupt images. -/
def rewriteImageFailures (imgs : List ImageObj) : List ℕ :=
  (imgs.filter fun img => img.corrupt).map fun img => img.oid

/-- A PDF document as the save pipeline sees it: a page list and the
embedded images. -/
structure PdfDocModel where
  pages : List ℕ
  images : List ImageObj
deriving DecidableEq, Repr

/-- Modelled from the spec: the image pass over a whole document (spec
§4.3): only the image streams are rewritten; the page list is untouched
(the page holding a corrupt image is kept). -/
def rewriteDocImages (d : PdfDocModel) : PdfDocModel :=
  { d with images := rewriteImagePass d.images }

/-! ## Atomic save (spec §4.3, §7) -/

/-- Modelled from the spec: the output write of pdf_save_document (library
code, not under src).  Spec §4.3/§7: the output is written to a temporary
path and atomically published on success; an IOFailure while writing
(`written = Except.error m`) aborts and leaves the destination path
untouched.  `files` is the visible file system, mapping a path to its byte
content. -/
def atomicPublish (files : String → Option (List ℕ)) (path : String)
    (written : Except String (List ℕ)) :
    Except String Unit × (String → Option (List ℕ)) :=
  match written with
  | Except.ok bytes =>
    (Except.ok (), fun p => if p = path then some bytes else files p)
  | Except.error m => (Except.error m, files)

/-! ## Graft maps (spec §3, §4.4; MuPDFHelpers.h lines 87-103)

mino_new_graft_map / mino_graft_page are declared in MuPDFHelpers.h but
their implementation is not under src; the engine is modelled from the
spec. -/

/-- A graft map: an association table from (source document identity,
source object id) to destination object id, plus the next fresh
destination id. -/
structure pdf_graft_map where
  table : List ((ℕ × ℕ) × ℕ)
  nextId : ℕ
deriving DecidableEq, Repr

/-- Look a source object up in the table. -/
def findMapped : List ((ℕ × ℕ) × ℕ) → ℕ × ℕ → Option ℕ
  | [], _ => none
  | (k, v) :: rest, src => if k = src then some v else findMapped rest src

/-- Modelled from the spec: mino_new_graft_map (declared at
MuPDFHelpers.h:88, implementation not under src): a fresh map with no
recorded grafts; destination ids start after the destination document's
existing objects (`firstFree`). -/
def mino_new_graft_map (firstFree : ℕ) : pdf_graft_map :=
  { table := [], nextId := firstFree }

/-- Modelled from the spec: grafting one source object through the map
(spec §4.4): if the same source object (same source document identity and
object id) was already grafted, reuse its destination id and leave the map
unchanged; otherwise copy it to a fresh destination id and record the
mapping. -/
def graftObject (m : pdf_graft_map) (src : ℕ × ℕ) : ℕ × pdf_graft_map :=
  match findMapped m.table src with
  | some d => (d, m)
  | none => (m.nextId, ⟨(src, m.nextId) :: m.table, m.nextId + 1⟩)

/-- Graft a list of source objects in order, threading the map. -/
def graftObjects : pdf_graft_map → List (ℕ × ℕ) → List ℕ × pdf_graft_map
  | m, [] => ([], m)
  | m, src :: rest =>
    let r1 := graftObject m src
    let r2 := graftObjects r1.2 rest
    (r1.1 :: r2.1, r2.2)

/-- Modelled from the spec: mino_graft_page (declared at
MuPDFHelpers.h:97-103, implementation not under src).  Spec §4.4: the
source page's subtree is deep-copied into the destination page list
(destination index -1 appends); every resource object the page references
is routed through the graft map, so resources shared between grafts are
deduplicated while each graft inserts a fresh, distinct page.  A
destination page is represented by the list of destination object ids of
its referenced resources. -/
def mino_graft_page (m : pdf_graft_map) (dstPages : List (List ℕ))
    (srcResources : List (ℕ × ℕ)) : List (List ℕ) × pdf_graft_map :=
  let r := graftObjects m srcResources
  (dstPages ++ [r.1], r.2)

/-! ## Page deletion (spec §6, §8; MuPDFHelpers.h lines 105-114) -/

/-- Modelled from the spec: mino_delete_page_range (declared at
MuPDFHelpers.h:114, implementation not under src): deletes the pages with
0-based indices in [start, endEx) — start inclusive, end exclusive — from
the page list, keeping the remaining pages in order. -/
def mino_delete_page_range (pages : List ℕ) (start endEx : ℕ) : List ℕ :=
  pages.take start ++ pages.drop endEx

/-! ## Theorems -/

/-- C8: deleting the page range [2, 5) (start inclusive, end exclusive)
from any 10-page document yields a 7-page document whose remaining pages
are the original pages 0 and 1 followed by the original pages 5 through 9,
in that order. -/
theorem c8_delete_page_range_two_five :
    ∀ (p0 p1 p2 p3 p4 p5 p6 p7 p8 p9 : ℕ),
      mino_delete_page_range [p0, p1, p2, p3, p4, p5, p6, p7, p8, p9] 2 5
          = [p0, p1, p5, p6, p7, p8, p9]
        ∧ (mino_delete_page_range [p0, p1, p2, p3, p4, p5, p6, p7, p8, p9]
            2 5).length = 7
        ∧ [p0, p1, p2, p3, p4, p5, p6, p7, p8, p9].length = 10 := by
  intro p0 p1 p2 p3 p4 p5 p6 p7 p8 p9
  exact ⟨rfl, rfl, rfl⟩

/-- C3 counterexample: the claim reads the save contract as taking every
recognized option from the caller; but for caller options requesting
linearize (and regenerate_appearances), the write options the code builds
differ from the claimed ones — mino_compress_pdf accepts only
garbage_level and fixes every other pass. -/
theorem c3_counterexample_options_not_caller_controlled :
    codeWriteOptions
        { garbage_level := 0
          compress_streams := true
          compress_images := true
          compress_fonts := true
          clean_content_streams := true
          sanitize := true
          linearize := true
          regenerate_appearances := true }
      ≠ specWriteOptions
        { garbage_level := 0
          compress_streams := true
          compress_images := true
          compress_fonts := true
          clean_content_streams := true
          sanitize := true
          linearize := true
          regenerate_appearances := true } := by
  decide

/-- C3 (amended): of the recognized options only garbage_level (0-4) is
taken from the caller; the save pipeline always compresses streams,
images and fonts, cleans content streams and sanitizes, and never
linearizes or regenerates appearances. -/
theorem c3_only_garbage_level_caller_controlled :
    ∀ (o : SaveOptions),
      (codeWriteOptions o).do_garbage = o.garbage_level
        ∧ (codeWriteOptions o).do_compress = 1
        ∧ (codeWriteOptions o).do_compress_images = 1
        ∧ (codeWriteOptions o).do_compress_fonts = 1
        ∧ (codeWriteOptions o).do_clean = 1
        ∧ (codeWriteOptions o).do_sanitize = 1
        ∧ (codeWriteOptions o).do_linear = 0
        ∧ (codeWriteOptions o).do_appearance = 0 := by
  intro o
  exact ⟨rfl, rfl, rfl, rfl, rfl, rfl, rfl, rfl⟩

/-- C5: an I/O failure while writing the output is fatal for the save —
the wrapper returns -1 with the error recorded — and leaves no
partially-written file visible at the destination path: the modelled
pdf_save_document writes to a temporary path and atomically publishes only
on success, so on failure every path (the destination included) still maps
to its previous content. -/
theorem c5_io_failure_leaves_destination_untouched :
    ∀ (files : String → Option (List ℕ)) (path m : String)
      (bytes : List ℕ) (c : fz_context) (d : pdf_document)
      (q t g : Int) (rewriteLib : Except String Unit) (s : String),
      (atomicPublish files path (Except.error m)).1 = Except.error m
        ∧ (∀ p, (atomicPublish files path (Except.error m)).2 p = files p)
        ∧ (atomicPublish files path (Except.ok bytes)).2 path = some bytes
        ∧ (mino_compress_pdf (some c) (some d) (some path) q t g rewriteLib
            (fun _ => Except.error m) s).1 = -1 := by
  intro files path m bytes c d q t g rewriteLib s
  refine ⟨rfl, fun p => rfl, ?_, ?_⟩
  · simp [atomicPublish]
  · cases rewriteLib <;> rfl

/-- C9: every exported operation, given a NULL context, NULL
document/pixmap handle, or NULL path, returns its error sentinel (-1 for
integer-returning operations, NULL for pointer-returning operations, 0 for
pixmap dimension accessors).  Each equality holds for every value of the
library-call parameter, so the null argument is never consulted
(dereferenced) and no library call that could mutate a document is made;
the only state the guards may touch is the error buffer. -/
theorem c9_null_arguments_return_sentinels :
    ∀ (s path : String) (c : fz_context) (d : fz_document)
      (pd : pdf_document) (pix : fz_pixmap)
      (libN : Except String Int) (libD : Except String fz_document)
      (libP : Option pdf_document) (libU : Except String Unit)
      (libW : pdf_write_options → Except String Unit)
      (libR : Except String fz_rect) (libF : Except Unit Int)
      (paint : (ℕ → ℕ) → ℕ → ℕ) (q t g thr : Int) (zoom w h : ℚ),
      mino_count_pages none (some d) libN s = (-1, s)
        ∧ mino_count_pages (some c) none libN s = (-1, s)
        ∧ mino_open_document none (some path) libD s
            = (none, set_error "Invalid context or path" s)
        ∧ mino_open_document (some c) none libD s
            = (none, set_error "Invalid context or path" s)
        ∧ mino_pdf_specifics none (some d) libP s = (none, s)
        ∧ mino_pdf_specifics (some c) none libP s = (none, s)
        ∧ mino_rewrite_images none (some pd) q t thr libU s
            = (-1, set_error "Invalid context or document" s)
        ∧ mino_rewrite_images (some c) none q t thr libU s
            = (-1, set_error "Invalid context or document" s)
        ∧ mino_compress_pdf none (some pd) (some path) q t g libU libW s
            = (-1, set_error "Invalid parameters" s)
        ∧ mino_compress_pdf (some c) none (some path) q t g libU libW s
            = (-1, set_error "Invalid parameters" s)
        ∧ mino_compress_pdf (some c) (some pd) none q t g libU libW s
            = (-1, set_error "Invalid parameters" s)
        ∧ mino_render_page none (some d) libR zoom paint s
            = (none, set_error "Invalid context or document" s)
        ∧ mino_render_page (some c) none libR zoom paint s
            = (none, set_error "Invalid context or document" s)
        ∧ mino_get_page_size none (some d) libR w h s
            = (-1, w, h, set_error "Invalid parameters" s)
        ∧ mino_get_page_size (some c) none libR w h s
            = (-1, w, h, set_error "Invalid parameters" s)
        ∧ mino_pixmap_width none (some pix) = 0
        ∧ mino_pixmap_width (some c) none = 0
        ∧ mino_pixmap_height none (some pix) = 0
        ∧ mino_pixmap_height (some c) none = 0
        ∧ mino_pixmap_stride none (some pix) = 0
        ∧ mino_pixmap_stride (some c) none = 0
        ∧ mino_pixmap_samples none (some pix) = none
        ∧ mino_pixmap_samples (some c) none = none
        ∧ mino_get_file_size none libF s = (-1, s) := by
  intro s path c d pd pix libN libD libP libU libW libR libF paint q t g thr
    zoom w h
  refine ⟨rfl, rfl, rfl, rfl, rfl, rfl, rfl, rfl, rfl, rfl, rfl, rfl, rfl,
    rfl, rfl, rfl, rfl, rfl, rfl, rfl, rfl, rfl, rfl, rfl⟩

/-- C10 counterexample: a successful call to mino_compress_pdf can leave
mino_get_last_error non-NULL.  When the internal image-rewrite step throws
(its return value is ignored at C line 198) and the final save succeeds,
the call returns 0 yet the error buffer still holds the rewrite failure
message, so the claim's guarantee for mino_compress_pdf fails. -/
theorem c10_counterexample_compress_success_keeps_error :
    (mino_compress_pdf (some 0) (some 0) (some "out.pdf") 70 150 3
        (Except.error "corrupt image stream") (fun _ => Except.ok ()) "").1
        = 0
      ∧ mino_get_last_error
          (mino_compress_pdf (some 0) (some 0) (some "out.pdf") 70 150 3
            (Except.error "corrupt image stream") (fun _ => Except.ok ())
            "").2
        ≠ none := by
  refine ⟨rfl, ?_⟩
  decide

/-- C10 (amended): mino_create_context, mino_open_document,
mino_rewrite_images, mino_render_page and mino_get_page_size clear the
thread-local error state on entry, so after a successful call
mino_get_last_error returns NULL; mino_compress_pdf also clears on entry,
but when its internal image-rewrite step fails while the save succeeds it
returns success with the rewrite failure message still stored;
mino_count_pages and mino_pdf_specifics never clear the state, so an error
message from an earlier failed operation persists across their successful
completion. -/
theorem c10_error_state_clearing :
    ∀ (s m path : String) (c : fz_context) (d doc : fz_document)
      (pd : pdf_document) (libP : Option pdf_document)
      (bounds : fz_rect) (zoom w h : ℚ)
      (paint : (ℕ → ℕ) → ℕ → ℕ) (n q t g thr : Int),
      mino_get_last_error
          (mino_create_context (some c) (Except.ok ()) s).2 = none
        ∧ mino_get_last_error
            (mino_open_document (some c) (some path) (Except.ok doc) s).2
          = none
        ∧ mino_get_last_error
            (mino_rewrite_images (some c) (some pd) q t thr (Except.ok ())
              s).2 = none
        ∧ mino_get_last_error
            (mino_render_page (some c) (some d) (Except.ok bounds) zoom
              paint s).2 = none
        ∧ mino_get_last_error
            (mino_get_page_size (some c) (some d) (Except.ok bounds) w h
              s).2.2.2 = none
        ∧ mino_get_last_error
            (mino_compress_pdf (some c) (some pd) (some path) q t g
              (Except.ok ()) (fun _ => Except.ok ()) s).2 = none
        ∧ (mino_count_pages (some c) (some d) (Except.ok n) s).2 = s
        ∧ (mino_pdf_specifics (some c) (some d) libP s).2 = s
        ∧ (mino_compress_pdf (some c) (some pd) (some path) q t g
            (Except.error m) (fun _ => Except.ok ()) s).1 = 0
        ∧ (mino_compress_pdf (some c) (some pd) (some path) q t g
            (Except.error m) (fun _ => Except.ok ()) s).2
          = set_error m "" := by
  intro s m path c d doc pd libP bounds zoom w h paint n q t g thr
  refine ⟨rfl, rfl, rfl, rfl, rfl, rfl, rfl, rfl, rfl, rfl⟩

/-- C1: for any image class, the rewriter options the save pipeline builds
mark an image as a rewrite (downsample/recompress) candidate exactly when
its effective resolution exceeds target_dpi plus the headroom of 50 that
mino_compress_pdf adds (dpi_headroom is fixed at 50 at C line 197); in
particular, with target_dpi = 150 the configured threshold is 200, an image
at effective 600 DPI is a candidate and one at effective 180 DPI is not. -/
theorem c1_candidate_iff_exceeds_threshold :
    ∀ (q t hr : Int) (cl : ImageClass) (e : ℚ),
      (isRewriteCandidate (mino_rewrite_images_options q t (t + hr)) cl e
            = true
          ↔ (t : ℚ) + (hr : ℚ) < e)
        ∧ isRewriteCandidate (mino_compress_rewrite_options q 150) cl 600
            = true
        ∧ isRewriteCandidate (mino_compress_rewrite_options q 150) cl 180
            = false := by
  intro q t hr cl e
  have hopts : ∀ (q t thr : Int) (cl : ImageClass),
      (classOpts (mino_rewrite_images_options q t thr) cl).subsample_threshold
        = thr := by
    intro q t thr cl
    cases cl <;> rfl
  refine ⟨?_, ?_, ?_⟩
  · rw [isRewriteCandidate, hopts]
    push_cast
    exact decide_eq_true_iff
  · rw [isRewriteCandidate, mino_compress_rewrite_options, hopts]
    norm_num
  · rw [isRewriteCandidate, mino_compress_rewrite_options, hopts]
    norm_num

/-- C6: whenever an image is a rewrite candidate, the resulting plan
targets the lossy JPEG codec at the configured quality regardless of
whether the source image was lossy or lossless: all four image classes —
the lossless ones included — are configured with recompress_method
FZ_RECOMPRESS_JPEG and the same quality string (C lines 140-166), and the
plan of any candidate copies that method and quality. -/
theorem c6_candidates_always_jpeg :
    ∀ (q t thr : Int) (cl : ImageClass) (e : ℚ),
      (classOpts (mino_rewrite_images_options q t thr) cl).recompress_method
          = RecompressMethod.jpeg
        ∧ (classOpts (mino_rewrite_images_options q t thr)
            cl).recompress_quality = toString q
        ∧ (isRewriteCandidate (mino_rewrite_images_options q t thr) cl e
              = true →
            (planImage (mino_rewrite_images_options q t thr) cl e).target_codec
                = RecompressMethod.jpeg
              ∧ (planImage (mino_rewrite_images_options q t thr) cl
                  e).quality = toString q) := by
  intro q t thr cl e
  have hm : (classOpts (mino_rewrite_images_options q t thr)
      cl).recompress_method = RecompressMethod.jpeg := by
    cases cl <;> rfl
  have hq : (classOpts (mino_rewrite_images_options q t thr)
      cl).recompress_quality = toString q := by
    cases cl <;> rfl
  refine ⟨hm, hq, fun hc => ?_⟩
  rw [planImage, if_pos hc]
  exact ⟨hm, hq⟩

/-- Witness for C6 at a concrete input: a lossless colour image at
effective 600 DPI under quality 70, target 150 DPI and threshold 200 is a
candidate, and its plan targets JPEG at quality "70". -/
theorem c6_candidates_always_jpeg_witness :
    isRewriteCandidate (mino_rewrite_images_options 70 150 200)
        ImageClass.colorLossless 600 = true
      ∧ (planImage (mino_rewrite_images_options 70 150 200)
          ImageClass.colorLossless 600).target_codec = RecompressMethod.jpeg
      ∧ (planImage (mino_rewrite_images_options 70 150 200)
          ImageClass.colorLossless 600).quality = toString (70 : Int) := by
  have h := c6_candidates_always_jpeg 70 150 200 ImageClass.colorLossless 600
  have hc : isRewriteCandidate (mino_rewrite_images_options 70 150 200)
      ImageClass.colorLossless 600 = true := by decide
  exact ⟨hc, (h.2.2 hc).1, (h.2.2 hc).2⟩

/-- C4: rendering a page whose bounding box is [0,w] × [0,h] at any scale
produces a pixmap of width ceil(w·scale) and height ceil(h·scale) (so in
particular for every positive scale), whose buffer is initialized to
opaque white (every byte 255) before painting; a 612×792-unit page at
scale 2.0 yields width 1224 and height 1584. -/
theorem c4_render_page_dimensions :
    ∀ (w h zoom : ℚ) (paint : (ℕ → ℕ) → ℕ → ℕ) (c : fz_context)
      (d : fz_document) (s : String),
      ((mino_render_page (some c) (some d)
            (Except.ok { x0 := 0, y0 := 0, x1 := w, y1 := h }) zoom paint
            s).1.map fz_pixmap.w = some ⌈w * zoom⌉
          ∧ (mino_render_page (some c) (some d)
              (Except.ok { x0 := 0, y0 := 0, x1 := w, y1 := h }) zoom paint
              s).1.map fz_pixmap.h = some ⌈h * zoom⌉)
        ∧ (new_pixmap_white (round_rect (scale_rect zoom
              { x0 := 0, y0 := 0, x1 := w, y1 := h }))).samples
            = (fun _ => 255)
        ∧ (mino_render_page (some c) (some d)
            (Except.ok { x0 := 0, y0 := 0, x1 := 612, y1 := 792 }) 2 paint
            s).1.map fz_pixmap.w = some 1224
        ∧ (mino_render_page (some c) (some d)
            (Except.ok { x0 := 0, y0 := 0, x1 := 612, y1 := 792 }) 2 paint
            s).1.map fz_pixmap.h = some 1584 := by
  intro w h zoom paint c d s
  have key : ∀ (w h zoom : ℚ),
      ((mino_render_page (some c) (some d)
          (Except.ok { x0 := 0, y0 := 0, x1 := w, y1 := h }) zoom paint
          s).1.map fz_pixmap.w = some ⌈w * zoom⌉)
        ∧ ((mino_render_page (some c) (some d)
            (Except.ok { x0 := 0, y0 := 0, x1 := w, y1 := h }) zoom paint
            s).1.map fz_pixmap.h = some ⌈h * zoom⌉) := by
    intro w h zoom
    constructor <;>
      simp [mino_render_page, new_pixmap_white, round_rect, scale_rect,
        mul_comm zoom]
  refine ⟨key w h zoom, rfl, ?_, ?_⟩
  · rw [(key 612 792 2).1]
    norm_num
  · rw [(key 612 792 2).2]
    norm_num

/-- C2: for a document whose images are 49 readable ones plus a single
corrupt one, the modelled per-image pass reports exactly one recoverable
sub-failure (the corrupt image's object id), keeps the corrupt image
unmodified while recompressing the other 49, leaves the page list
untouched, and the save pipeline completes with success — the wrapper
provably returns 0 whatever the outcome of its rewrite step, because
mino_compress_pdf ignores the rewrite return value (C line 198). -/
theorem c2_corrupt_image_reported_per_object :
    ∀ (pre post : List ImageObj) (bad : ImageObj) (pg : List ℕ)
      (c : fz_context) (d : pdf_document) (path s : String) (q t g : Int)
      (rewriteLib : Except String Unit),
      pre.length + post.length = 49 →
      (∀ i ∈ pre, i.corrupt = false) →
      (∀ i ∈ post, i.corrupt = false) →
      bad.corrupt = true →
      rewriteImageFailures (pre ++ bad :: post) = [bad.oid]
        ∧ rewriteImagePass (pre ++ bad :: post)
            = pre.map (fun i => { i with recompressed := true })
              ++ bad :: post.map (fun i => { i with recompressed := true })
        ∧ (rewriteImagePass (pre ++ bad :: post)).length = 50
        ∧ (rewriteDocImages
            { pages := pg, images := pre ++ bad :: post }).pages = pg
        ∧ (mino_compress_pdf (some c) (some d) (some path) q t g rewriteLib
            (fun _ => Except.ok ()) s).1 = 0 := by
  intro pre post bad pg c d path s q t g rewriteLib hlen hpre hpost hbad
  have hfpre : pre.filter (fun img => img.corrupt) = [] :=
    List.filter_eq_nil_iff.mpr (by
      intro a ha
      simp [hpre a ha])
  have hfpost : post.filter (fun img => img.corrupt) = [] :=
    List.filter_eq_nil_iff.mpr (by
      intro a ha
      simp [hpost a ha])
  refine ⟨?_, ?_, ?_, rfl, ?_⟩
  · rw [rewriteImageFailures, List.filter_append, hfpre,
      List.filter_cons_of_pos (by simpa using hbad), hfpost]
    rfl
  · have hm1 : List.map (fun img => if img.corrupt then img
        else { img with recompressed := true }) pre
        = List.map (fun i => { i with recompressed := true }) pre := by
      apply List.map_congr_left
      intro i hi
      rw [hpre i hi]
      simp
    have hm2 : List.map (fun img => if img.corrupt then img
        else { img with recompressed := true }) post
        = List.map (fun i => { i with recompressed := true }) post := by
      apply List.map_congr_left
      intro i hi
      rw [hpost i hi]
      simp
    rw [rewriteImagePass, List.map_append, List.map_cons, hm1, hm2, hbad]
    simp
  · rw [rewriteImagePass, List.length_map, List.length_append,
      List.length_cons]
    omega
  · cases rewriteLib <;> rfl

/-- Witness for C2 at a concrete input: a 50-image document whose eighth
image (object id 9) is corrupt: the pass reports exactly the sub-failure
[9], keeps the page, and the save returns success even though the rewrite
step threw. -/
theorem c2_corrupt_image_reported_per_object_witness :
    rewriteImageFailures
        (List.replicate 7 ⟨1, false, false⟩
          ++ ⟨9, true, false⟩ :: List.replicate 42 ⟨2, false, false⟩)
      = [9]
    ∧ rewriteImagePass
        (List.replicate 7 ⟨1, false, false⟩
          ++ ⟨9, true, false⟩ :: List.replicate 42 ⟨2, false, false⟩)
      = (List.replicate 7 (⟨1, false, false⟩ : ImageObj)).map
          (fun i => { i with recompressed := true })
        ++ ⟨9, true, false⟩
          :: (List.replicate 42 (⟨2, false, false⟩ : ImageObj)).map
            (fun i => { i with recompressed := true })
    ∧ (rewriteImagePass
        (List.replicate 7 ⟨1, false, false⟩
          ++ ⟨9, true, false⟩ :: List.replicate 42 ⟨2, false, false⟩)).length
      = 50
    ∧ (rewriteDocImages
        { pages := [0]
          images := List.replicate 7 ⟨1, false, false⟩
            ++ ⟨9, true, false⟩
              :: List.replicate 42 ⟨2, false, false⟩ }).pages = [0]
    ∧ (mino_compress_pdf (some 0) (some 0) (some "out.pdf") 70 150 3
        (Except.error "corrupt stream") (fun _ => Except.ok ()) "").1
      = 0 := by
  exact c2_corrupt_image_reported_per_object
    (List.replicate 7 ⟨1, false, false⟩)
    (List.replicate 42 ⟨2, false, false⟩)
    ⟨9, true, false⟩ [0] 0 0 "out.pdf" "" 70 150 3
    (Except.error "corrupt stream")
    (by decide) (by decide) (by decide) rfl

/-! ## Graft map lemmas -/

/-- Grafting an object preserves every existing (source, destination)
binding in the map. -/
theorem findMapped_graftObject_preserved (m : pdf_graft_map)
    (src k : ℕ × ℕ) (v : ℕ) (h : findMapped m.table k = some v) :
    findMapped (graftObject m src).2.table k = some v := by
  rw [graftObject]
  cases hfind : findMapped m.table src with
  | some d => exact h
  | none =>
    show findMapped ((src, m.nextId) :: m.table) k = some v
    rw [findMapped]
    by_cases hk : src = k
    · subst hk
      rw [hfind] at h
      cases h
    · rw [if_neg hk]
      exact h

/-- After grafting an object, the map binds it to the returned destination
id. -/
theorem findMapped_graftObject_self (m : pdf_graft_map) (src : ℕ × ℕ) :
    findMapped (graftObject m src).2.table src
      = some (graftObject m src).1 := by
  rw [graftObject]
  cases hfind : findMapped m.table src with
  | some d => exact hfind
  | none =>
    show findMapped ((src, m.nextId) :: m.table) src = some m.nextId
    rw [findMapped, if_pos rfl]

/-- Grafting a list of objects preserves every existing binding. -/
theorem findMapped_graftObjects_preserved (rs : List (ℕ × ℕ)) :
    ∀ (m : pdf_graft_map) (k : ℕ × ℕ) (v : ℕ),
      findMapped m.table k = some v →
      findMapped (graftObjects m rs).2.table k = some v := by
  induction rs with
  | nil =>
    intro m k v h
    exact h
  | cons src rest ih =>
    intro m k v h
    rw [graftObjects]
    exact ih _ _ _ (findMapped_graftObject_preserved m src k v h)

/-- After grafting a list of objects, the final map binds each source
object to the destination id chosen for it. -/
theorem graftObjects_binds_each (rs : List (ℕ × ℕ)) :
    ∀ (m : pdf_graft_map),
      List.Forall₂
        (fun src d => findMapped (graftObjects m rs).2.table src = some d)
        rs (graftObjects m rs).1 := by
  induction rs with
  | nil =>
    intro m
    exact List.Forall₂.nil
  | cons src rest ih =>
    intro m
    rw [graftObjects]
    exact List.Forall₂.cons
      (findMapped_graftObjects_preserved rest _ src _
        (findMapped_graftObject_self m src))
      (ih (graftObject m src).2)

/-- Grafting a list of objects that are all already bound returns the
bound destination ids and leaves the map unchanged. -/
theorem graftObjects_of_all_bound (rs : List (ℕ × ℕ)) :
    ∀ (m : pdf_graft_map) (ds : List ℕ),
      List.Forall₂ (fun src d => findMapped m.table src = some d) rs ds →
      graftObjects m rs = (ds, m) := by
  induction rs with
  | nil =>
    intro m ds h
    cases h
    rfl
  | cons src rest ih =>
    intro m ds h
    cases h with
    | cons hs htail =>
      rw [graftObjects, graftObject, hs, ih m _ htail]

/-- Re-grafting the same source list through the resulting map returns the
same destination ids and does not grow the map. -/
theorem graftObjects_idempotent (m : pdf_graft_map) (rs : List (ℕ × ℕ)) :
    graftObjects (graftObjects m rs).2 rs = graftObjects m rs :=
  graftObjects_of_all_bound rs (graftObjects m rs).2 (graftObjects m rs).1
    (graftObjects_binds_each rs m)

/-- C7: grafting the same source object (same source document identity and
object id) twice through the same map yields the same destination
object-id, and grafting the same source page twice appends two distinct
destination pages (the page list grows by one each time) that reference
the same destination resource object-ids rather than duplicated copies. -/
theorem c7_graft_map_idempotent_dedup :
    ∀ (m : pdf_graft_map) (src : ℕ × ℕ) (dstPages : List (List ℕ))
      (srcResources : List (ℕ × ℕ)),
      (graftObject (graftObject m src).2 src).1 = (graftObject m src).1
        ∧ (mino_graft_page (mino_graft_page m dstPages srcResources).2
            (mino_graft_page m dstPages srcResources).1 srcResources).1
          = dstPages ++ [(graftObjects m srcResources).1,
              (graftObjects m srcResources).1]
        ∧ (mino_graft_page (mino_graft_page m dstPages srcResources).2
            (mino_graft_page m dstPages srcResources).1 srcResources).1.length
          = dstPages.length + 2 := by
  intro m src dstPages srcResources
  have hobj : (graftObject (graftObject m src).2 src).1
      = (graftObject m src).1 := by
    have h := findMapped_graftObject_self m src
    rw [graftObject, h]
  have hpage : (mino_graft_page (mino_graft_page m dstPages srcResources).2
      (mino_graft_page m dstPages srcResources).1 srcResources).1
      = dstPages ++ [(graftObjects m srcResources).1,
          (graftObjects m srcResources).1] := by
    rw [mino_graft_page, mino_graft_page, graftObjects_idempotent]
    simp
  refine ⟨hobj, hpage, ?_⟩
  rw [hpage]
  simp
